import Mathlib

/-!
Verification development for the solar irradiance acquisition server
(`server.js`, `part_001`, `part_002` of the repository).  JavaScript
numbers are modelled as rationals where only field arithmetic occurs and
as reals for the offline synthesizer, whose formula uses `Math.sin`.
Possibly missing JS object fields are `Option` values; JS truthiness of a
numeric field holds exactly when the field is present and nonzero.
Exceptions of `async` functions are modelled with `Except`: a function
that catches internally is total into its plain result type.
-/

/-- JS truthiness of a numeric field: `undefined` and `0` are falsy. -/
def truthy : Option ℚ → Bool
  | none => false
  | some x => decide (x ≠ 0)

/-- JS `a || b` for a numeric field: a falsy (`undefined` or `0`) left
operand falls back to the default. -/
def jsNumOr (o : Option ℚ) (dflt : ℚ) : ℚ :=
  match o with
  | none => dflt
  | some x => if x = 0 then dflt else x

/-- JS `a || b` for a string field: `undefined` and `""` are falsy. -/
def jsStrOr (o : Option String) (dflt : String) : String :=
  match o with
  | none => dflt
  | some s => if s = "" then dflt else s

/-- The `coordinates` object of a request body; either field may be
absent. -/
structure JsCoords where
  lat : Option ℚ
  lng : Option ℚ
deriving DecidableEq

/-- Body of a manual scrape request. -/
structure ScrapeBody where
  coordinates : Option JsCoords
  location_name : Option String
  lat : Option ℚ
  lng : Option ℚ
deriving DecidableEq

/-- Outcome of a manual scrape route: an immediate client error, or an
acquisition started for the resolved coordinates. -/
inductive RouteOutcome where
  | badRequest (status : Nat) (message : String)
  | scrape (lat lng : ℚ) (name : String)
deriving DecidableEq

/-- Coordinate resolution of the manual scrape routes in `part_001`
(lines 397-402): a `coordinates` object with truthy `lat` and `lng`
wins, else truthy top-level `lat` and `lng`, else nothing. -/
def resolveCoords (b : ScrapeBody) : Option (ℚ × ℚ) :=
  match b.coordinates with
  | some c =>
      if truthy c.lat && truthy c.lng then some (c.lat.getD 0, c.lng.getD 0)
      else if truthy b.lat && truthy b.lng then some (b.lat.getD 0, b.lng.getD 0)
      else none
  | none =>
      if truthy b.lat && truthy b.lng then some (b.lat.getD 0, b.lng.getD 0)
      else none

/-- Handler of `POST /api/scrape/manual` (aliases `/api/force-scrape`,
`/api/scrape-location`) in `part_001` lines 395-408. -/
def manualScrapeHandler (b : ScrapeBody) : RouteOutcome :=
  match resolveCoords b with
  | none => .badRequest 400 "Coordinates are required (coordinates or lat/lng)"
  | some (la, ln) =>
      .scrape la ln
        (jsStrOr b.location_name ("Manual_" ++ toString la ++ "_" ++ toString ln))

/-- Handler of `POST /api/scrape-location` in `server.js` lines 949-963. -/
def scrapeLocationHandler (b : ScrapeBody) : RouteOutcome :=
  match b.coordinates with
  | none => .badRequest 400 "Coordinates (lat, lng) are required"
  | some c =>
      if truthy c.lat && truthy c.lng then
        .scrape (c.lat.getD 0) (c.lng.getD 0) (b.location_name.getD "Unknown Location")
      else .badRequest 400 "Coordinates (lat, lng) are required"

/-- Number of `solar_data` rows a manual scrape request on `part_001`
writes: the reject branch returns before `performAutoScrape`, the only
writer, which inserts exactly one row on either of its paths. -/
def manualScrapeRowsWritten (b : ScrapeBody) : Nat :=
  match manualScrapeHandler b with
  | .badRequest _ _ => 0
  | .scrape _ _ _ => 1

/-- One adapter result, as far as the aggregation inspects it. -/
structure PartialSource where
  success : Bool
  data_quality : String
deriving DecidableEq

/-- Combined acquisition result assembled by `performAutoScrape`
(`part_001` lines 209-219); adapter outputs are parameters. -/
structure CombinedResult where
  success : Bool
  location : String
  globalsolaratlas : PartialSource
  pvgis : PartialSource
  bmkg : PartialSource
  sources_scraped : Nat
  scraping_duration_ms : Nat
  is_online_scrape : Bool
deriving DecidableEq

/-- Result construction of `performAutoScrape` in `part_001`:
`sources_scraped` is the length of the success-filtered list of the
three adapter results (line 216). -/
def performAutoScrape (gsa pvgis bmkg : PartialSource) (locationName : String)
    (isOnline : Bool) (durationMs : Nat) : CombinedResult :=
  { success := true
    location := locationName
    globalsolaratlas := gsa
    pvgis := pvgis
    bmkg := bmkg
    sources_scraped := ([gsa, pvgis, bmkg].filter (fun x => x.success)).length
    scraping_duration_ms := durationMs
    is_online_scrape := isOnline }

/-- Spec reading of the invariant: the number of the three per-source
readings whose success flag is true. -/
def successCountSpec (a b c : Bool) : Nat :=
  List.countP (fun x : Bool => x) [a, b, c]

/-- Combined reading assembled by `scrapeAllSources` in `server.js`
(lines 774-785); only the fields the claims inspect are carried. -/
structure ServerReading where
  success : Bool
  location : String
  globalsolaratlas : PartialSource
  pvgis : PartialSource
  bmkg : PartialSource
  sources_scraped : Nat
  scraping_duration_ms : Nat
deriving DecidableEq

/-- One entry of `scrapingCache`: the stored reading and the `Date.now()`
at which it was stored. -/
structure CacheEntry where
  data : ServerReading
  timestamp : Int
deriving DecidableEq

/-- Cache lookup and acquisition of `scrapeAllSources` (`server.js`
lines 697-791): an entry younger than one hour is returned as is and the
adapters are not invoked; otherwise the combined reading is rebuilt from
the three adapter results (parameters here) and stored under the key
built from the raw coordinates.  The third component records whether the
adapters were invoked. -/
def scrapeAllSources (cache : String → Option CacheEntry) (now : Int)
    (gsa pvgis bmkg : PartialSource) (locationName : String) (lat lng : ℚ)
    (durationMs : Nat) : ServerReading × (String → Option CacheEntry) × Bool :=
  let cacheKey := toString lat ++ "_" ++ toString lng
  let finalResult : ServerReading :=
    { success := true
      location := locationName
      globalsolaratlas := gsa
      pvgis := pvgis
      bmkg := bmkg
      sources_scraped := ([gsa, pvgis, bmkg].filter (fun r => r.success)).length
      scraping_duration_ms := durationMs }
  match cache cacheKey with
  | some cached =>
      if now - cached.timestamp < 3600000 then (cached.data, cache, false)
      else (finalResult, fun k => if k = cacheKey then some ⟨finalResult, now⟩ else cache k, true)
  | none =>
      (finalResult, fun k => if k = cacheKey then some ⟨finalResult, now⟩ else cache k, true)

/-- Metric record extracted by the Global Solar Atlas adapter; the
`page.evaluate` payload always fills every field. -/
structure AtlasMetrics where
  ghi : Option ℚ
  dni : Option ℚ
  dhi : Option ℚ
  temperature : Option ℚ
  humidity : Option ℚ
  extraction_method : String
deriving DecidableEq

/-- Reading returned by the Global Solar Atlas adapter. -/
structure AtlasReading where
  success : Bool
  source : String
  data : AtlasMetrics
  data_quality : String
deriving DecidableEq

/-- Quality tag mapping of `scrapeGlobalSolarAtlas` (`server.js` lines
412-413). -/
def qualityOfMethod (m : String) : String :=
  if m = "element" then "excellent" else if m = "text" then "good" else "estimated"

/-- `scrapeGlobalSolarAtlas` (`server.js` lines 333-438).  `nav` is the
outcome of the navigation and extraction phase after the page has been
opened; `r1 r2 r3` are the `Math.random()` draws of the fallback.  The
second component records whether `page.close()` ran before returning:
the success path closes the page (line 405), the outer catch (lines
416-438) returns the fallback without closing it. -/
def scrapeGlobalSolarAtlas (lat lng : ℚ) (nav : Except String AtlasMetrics)
    (r1 r2 r3 : ℚ) : AtlasReading × Bool :=
  match nav with
  | .ok solarData =>
      ({ success := true
         source := "globalsolaratlas.info"
         data := solarData
         data_quality := qualityOfMethod solarData.extraction_method }, true)
  | .error _e =>
      let baseGHI := if |lat| < 10 then 5.1 + r1 * 0.8 else 4.2 + r1 * 1.0
      ({ success := false
         source := "globalsolaratlas.info"
         data :=
           { ghi := some baseGHI
             dni := some (baseGHI * 0.78)
             dhi := some (baseGHI * 0.32)
             temperature := some (27 + r2 * 5)
             humidity := some (73 + r3 * 17)
             extraction_method := "error_fallback" }
         data_quality := "estimated" }, false)

/-- The `outputs` object of a PVGIS API response: possibly missing
monthly irradiation values and yearly totals. -/
structure PvgisOutputs where
  monthly : List (Option ℚ)
  yearly_Hh : Option ℚ
  yearly_Ey : Option ℚ
  optimal_angle : Option ℚ
deriving DecidableEq

/-- Metric record of the PVGIS adapter. -/
structure PvgisMetrics where
  ghi : Option ℚ
  dni : Option ℚ
  pv_output : Option ℚ
  optimal_angle : Option ℚ
  temperature : Option ℚ
deriving DecidableEq

/-- Reading returned by the PVGIS adapter. -/
structure PvgisReading where
  success : Bool
  source : String
  data : PvgisMetrics
  data_quality : String
deriving DecidableEq

/-- `scrapePVGIS` (`server.js` lines 442-512).  `response` is the HTTP
outcome: a response without `outputs` raises and lands in the same catch
as a transport error.  `r1 r2 r3 r4` are the `Math.random()` draws. -/
def scrapePVGIS (lat lng : ℚ) (response : Except String (Option PvgisOutputs))
    (r1 r2 r3 r4 : ℚ) : PvgisReading :=
  match response with
  | .ok (some outputs) =>
      let avgGHI :=
        if 0 < outputs.monthly.length then
          (outputs.monthly.map (fun m => jsNumOr m 0)).sum / (outputs.monthly.length : ℚ)
        else jsNumOr outputs.yearly_Hh 4.8
      { success := true
        source := "re.jrc.ec.europa.eu/pvg_tools"
        data :=
          { ghi := some avgGHI
            dni := some (avgGHI * 0.75)
            pv_output := some (jsNumOr outputs.yearly_Ey (avgGHI * 365 * 0.15))
            optimal_angle := some (jsNumOr outputs.optimal_angle 15)
            temperature := some (27 + r1 * 6) }
        data_quality := "excellent" }
  | _ =>
      { success := false
        source := "re.jrc.ec.europa.eu/pvg_tools"
        data :=
          { ghi := some (4.7 + r1 * 0.6)
            dni := some (3.8 + r2 * 0.5)
            pv_output := some (1650 + r3 * 300)
            optimal_angle := some 15
            temperature := some (27 + r4 * 6) }
        data_quality := "estimated" }

/-- Weather object the BMKG adapter holds after its three internal
extraction stages (main site, alternative site, realistic estimate). -/
structure BmkgWeather where
  temperature : ℚ
  humidity : ℚ
  extraction_method : String
deriving DecidableEq

/-- Metric record of the BMKG adapter. -/
structure BmkgMetrics where
  temperature : Option ℚ
  humidity : Option ℚ
  pressure : Option ℚ
  wind_speed : Option ℚ
  cloud_cover : Option ℚ
  visibility : Option ℚ
  extraction_method : String
deriving DecidableEq

/-- Reading returned by the BMKG adapter. -/
structure BmkgReading where
  success : Bool
  source : String
  data : BmkgMetrics
  data_quality : String
deriving DecidableEq

/-- `scrapeBMKG` (`server.js` lines 515-694).  `env` is the outcome of
the page work after the page has been opened; the inner navigation
attempts catch their own failures, so `.ok` covers the estimate path
too.  The second component records whether `page.close()` (line 636)
ran: the outer catch (lines 673-693) returns without closing. -/
def scrapeBMKG (lat lng : ℚ) (env : Except String BmkgWeather)
    (r1 r2 r3 r4 r5 r6 : ℚ) : BmkgReading × Bool :=
  match env with
  | .ok w =>
      ({ success := true
         source := "bmkg/indonesian-weather"
         data :=
           { temperature := some w.temperature
             humidity := some w.humidity
             pressure := some (1010 + r1 * 8)
             wind_speed := some (2 + r2 * 4)
             cloud_cover := some (0.3 + r3 * 0.4)
             visibility := some (8 + r4 * 4)
             extraction_method := w.extraction_method }
         data_quality :=
           if w.extraction_method = "bmkg_main" then "excellent"
           else if w.extraction_method = "alternative" then "good" else "estimated" }, true)
  | .error _e =>
      ({ success := false
         source := "bmkg/indonesian-weather"
         data :=
           { temperature := some (27.5 + r1 * 4.5)
             humidity := some (74 + r2 * 16)
             pressure := some (1012 + r3 * 6)
             wind_speed := some (2.5 + r4 * 3)
             cloud_cover := some (0.35 + r5 * 0.3)
             visibility := some (8.5 + r6 * 2.5)
             extraction_method := "error_fallback" }
         data_quality := "estimated" }, false)

/-- `saveToPostgreSQL` (`part_001` lines 158-189): the insert outcome is
caught; a failure becomes a logged message, never a propagated
exception. -/
def saveToPostgreSQL (insertOutcome : Except String Unit) : Except String (Option String) :=
  match insertOutcome with
  | .ok _ => .ok none
  | .error e => .ok (some ("Save to PostgreSQL failed: " ++ e))

/-- The log message `saveToPostgreSQL` produces for an insert outcome. -/
def saveLogOf : Except String Unit → Option String
  | .ok _ => none
  | .error e => some ("Save to PostgreSQL failed: " ++ e)

/-- What one scheduler iteration records for a location. -/
structure CronStepLog where
  location : String
  saveLog : Option String
deriving DecidableEq

/-- One scheduler iteration around the persistence write: an uncaught
write exception would surface here as `.error` and abort the roster
sequencing. -/
def performAutoScrapeStep (loc : String) (insertOutcome : Except String Unit) :
    Except String CronStepLog :=
  match saveToPostgreSQL insertOutcome with
  | .error e => .error e
  | .ok logMsg => .ok ⟨loc, logMsg⟩

/-- Sequential roster iteration of `startAutoScraping` (`part_001` lines
233-249), with abort-on-exception sequencing: an `.error` escaping a
step stops the remaining locations. -/
def runRoster : List (String × Except String Unit) → Except String (List CronStepLog)
  | [] => .ok []
  | (loc, ins) :: rest =>
      match performAutoScrapeStep loc ins with
      | .error e => .error e
      | .ok l =>
          match runRoster rest with
          | .error e => .error e
          | .ok ls => .ok (l :: ls)

/-- The three per-source query configurations of
`buildHourlyDataForSource` (`part_001` lines 252-256). -/
inductive SourceKey where
  | gsa
  | pvgis
  | bmkg
deriving DecidableEq

/-- One persisted `solar_data` row, restricted to the columns the query
layer reads; a SQL NULL is `none`. -/
structure DbRow where
  scraping_timestamp : Int
  gsa_ghi : Option ℚ
  pvgis_ghi : Option ℚ
  bmkg_ghi : Option ℚ
  gsa_pv_output : Option ℚ
  pvgis_pv_output : Option ℚ
deriving DecidableEq

/-- The GHI column selected for a source key (`colMap`). -/
def ghiColumn : SourceKey → DbRow → Option ℚ
  | .gsa, r => r.gsa_ghi
  | .pvgis, r => r.pvgis_ghi
  | .bmkg, r => r.bmkg_ghi

/-- The 48-hour lookback condition of the SQL query
(`scraping_timestamp >= NOW() - INTERVAL 48 hours`), timestamps in
milliseconds. -/
def inLookbackWindow (now : Int) (r : DbRow) : Bool :=
  decide (now - 172800000 ≤ r.scraping_timestamp)

/-- `buildHourlyDataForSource` (`part_001` lines 251-286): rows with a
non-NULL GHI column inside the lookback window, projected to their GHI
value.  The SQL ORDER BY is dropped; the aggregates below are
order-invariant. -/
def buildHourlyDataForSource (src : SourceKey) (now : Int) (rows : List DbRow) :
    List (Option ℚ) :=
  (rows.filter (fun r => (ghiColumn src r).isSome && inLookbackWindow now r)).map
    (fun r => ghiColumn src r)

/-- The `avg_ghi` computation of the `GET /api/sources/...` endpoints
(`part_001` lines 319-320): `hourly.length > 0` guards a
`(d.ghi || 0)` sum divided by the length, else `0`. -/
def avgGhiOfSource (src : SourceKey) (now : Int) (rows : List DbRow) : ℚ :=
  if 0 < (buildHourlyDataForSource src now rows).length then
    ((buildHourlyDataForSource src now rows).map (fun d => jsNumOr d 0)).sum
      / ((buildHourlyDataForSource src now rows).length : ℚ)
  else 0

/-- Spec reading: the non-NULL GHI values of the persisted rows in the
queried window. -/
def windowGhiValues (src : SourceKey) (now : Int) (rows : List DbRow) : List ℚ :=
  (rows.filter (fun r => inLookbackWindow now r)).filterMap (fun r => ghiColumn src r)

/-- Spec reading: arithmetic mean, `0` for the empty list. -/
def arithmeticMean (l : List ℚ) : ℚ :=
  if l = [] then 0 else l.sum / (l.length : ℚ)

/-- JS `Number.prototype.toFixed(6)` followed by unary plus, for the
nonnegative values the synthesizer produces: round half up at six
decimal digits. -/
noncomputable def toFixed6 (x : ℝ) : ℝ :=
  (⌊x * 1000000 + 1 / 2⌋ : ℝ) / 1000000

/-- The time-of-day multiplier of `generateOfflineSolarData`
(`part_001` line 121). -/
noncomputable def timeMultiplier (hour : Nat) : ℝ :=
  if 6 ≤ hour ∧ hour ≤ 18 then
    Real.sin (((hour : ℝ) - 6) * Real.pi / 12) * 0.4 + 0.6
  else 0.2

/-- One synthesized source entry of the offline result. -/
structure OfflineSource where
  success : Bool
  source : String
  ghi : ℝ
  dni : Option ℝ
  dhi : Option ℝ
  pv_output : Option ℝ
  data_quality : String

/-- The offline combined result. -/
structure OfflineCombined where
  success : Bool
  location : String
  coordinates : ℝ × ℝ
  globalsolaratlas : OfflineSource
  pvgis : OfflineSource
  bmkg : OfflineSource
  scraping_duration_ms : Nat
  sources_scraped : Nat
  is_online_scrape : Bool

/-- `generateOfflineSolarData` (`part_001` lines 118-138); `hour` is the
wall-clock hour and `r` the `Math.random()` draw of the call. -/
noncomputable def generateOfflineSolarData (lat lng : ℝ) (hour : Nat) (r : ℝ)
    (locationName : Option String) : OfflineCombined :=
  let baseGHI := 4.8 + r * 0.6
  let ghi := toFixed6 (baseGHI * timeMultiplier hour)
  { success := true
    location := jsStrOr locationName "unknown"
    coordinates := (lat, lng)
    globalsolaratlas :=
      { success := true
        source := "globalsolaratlas.info"
        ghi := ghi
        dni := some (toFixed6 (ghi * 0.75))
        dhi := some (toFixed6 (ghi * 0.25))
        pv_output := some (toFixed6 (ghi * 45))
        data_quality := "offline_estimated" }
    pvgis :=
      { success := true
        source := "re.jrc.ec.europa.eu/pvg_tools"
        ghi := ghi * 0.97
        dni := some (toFixed6 (ghi * 0.7))
        dhi := none
        pv_output := some (toFixed6 (220 * timeMultiplier hour))
        data_quality := "offline_estimated" }
    bmkg :=
      { success := true
        source := "bmkg"
        ghi := ghi
        dni := none
        dhi := none
        pv_output := none
        data_quality := "offline_estimated" }
    scraping_duration_ms := 20
    sources_scraped := 3
    is_online_scrape := false }

/-- Sample body with a missing `lat` for the witness of the rejection
theorem. -/
def missingLatBody : ScrapeBody :=
  { coordinates := none, location_name := none, lat := none, lng := some 106.7942 }

/-- Sample body whose latitude is the falsy number `0` (a valid equator
coordinate). -/
def equatorBody : ScrapeBody :=
  { coordinates := some ⟨some 0, some 106.8456⟩
    location_name := some "Equator point"
    lat := none
    lng := none }

/-- Sample stored reading for the cache witness. -/
def cachedReadingW : ServerReading :=
  { success := true
    location := "Depok"
    globalsolaratlas := ⟨true, "estimated"⟩
    pvgis := ⟨true, "excellent"⟩
    bmkg := ⟨false, "estimated"⟩
    sources_scraped := 2
    scraping_duration_ms := 1200 }

/-- The cache key of the witness coordinates (1, 2). -/
def cacheKeyW : String := toString (1 : ℚ) ++ "_" ++ toString (2 : ℚ)

/-- Sample cache holding one entry, stored at time 0, for the witness. -/
def cacheW : String → Option CacheEntry :=
  fun k => if k = cacheKeyW then some ⟨cachedReadingW, 0⟩ else none

theorem floor_intCast_add_half (n : ℤ) : ⌊(n : ℝ) + 1 / 2⌋ = n := by
  rw [Int.floor_eq_iff]
  constructor
  · linarith
  · linarith

theorem toFixed6_millionth (n : ℤ) :
    toFixed6 ((n : ℝ) / 1000000) = (n : ℝ) / 1000000 := by
  unfold toFixed6
  have h : (n : ℝ) / 1000000 * 1000000 + 1 / 2 = (n : ℝ) + 1 / 2 := by
    field_simp
  rw [h, floor_intCast_add_half]

theorem toFixed6_mono {x y : ℝ} (h : x ≤ y) : toFixed6 x ≤ toFixed6 y := by
  unfold toFixed6
  have hf : ⌊x * 1000000 + 1 / 2⌋ ≤ ⌊y * 1000000 + 1 / 2⌋ :=
    Int.floor_mono (by linarith)
  have hc : ((⌊x * 1000000 + 1 / 2⌋ : ℤ) : ℝ) ≤ ((⌊y * 1000000 + 1 / 2⌋ : ℤ) : ℝ) := by
    exact_mod_cast hf
  exact div_le_div_of_nonneg_right hc (by norm_num) |>.trans_eq rfl

theorem toFixed6_ge {x : ℝ} {n : ℤ} (h : (n : ℝ) / 1000000 ≤ x) :
    (n : ℝ) / 1000000 ≤ toFixed6 x := by
  calc (n : ℝ) / 1000000 = toFixed6 ((n : ℝ) / 1000000) := (toFixed6_millionth n).symm
  _ ≤ toFixed6 x := toFixed6_mono h

theorem toFixed6_le_add (x : ℝ) : toFixed6 x ≤ x + 1 / 1000000 := by
  unfold toFixed6
  have h1 : ((⌊x * 1000000 + 1 / 2⌋ : ℤ) : ℝ) ≤ x * 1000000 + 1 / 2 := Int.floor_le _
  rw [div_le_iff (by norm_num : (0:ℝ) < 1000000)]
  linarith

theorem timeMultiplier_window (h : Nat) (hw : 6 ≤ h ∧ h ≤ 18) :
    0.6 ≤ timeMultiplier h ∧ timeMultiplier h ≤ 1 := by
  have h6 : (6 : ℝ) ≤ (h : ℝ) := by exact_mod_cast hw.1
  have h18 : (h : ℝ) ≤ 18 := by exact_mod_cast hw.2
  have hπ := Real.pi_pos
  have harg0 : 0 ≤ ((h : ℝ) - 6) * Real.pi / 12 := by
    apply div_nonneg _ (by norm_num)
    exact mul_nonneg (by linarith) (le_of_lt hπ)
  have harg1 : ((h : ℝ) - 6) * Real.pi / 12 ≤ Real.pi := by
    rw [div_le_iff (by norm_num : (0:ℝ) < 12)]
    nlinarith
  have hs0 := Real.sin_nonneg_of_nonneg_of_le_pi harg0 harg1
  have hs1 := Real.sin_le_one (((h : ℝ) - 6) * Real.pi / 12)
  unfold timeMultiplier
  rw [if_pos hw]
  constructor
  · nlinarith
  · nlinarith

theorem timeMultiplier_lb (h : Nat) : 0.2 ≤ timeMultiplier h := by
  by_cases hw : 6 ≤ h ∧ h ≤ 18
  · have := (timeMultiplier_window h hw).1
    linarith
  · unfold timeMultiplier
    rw [if_neg hw]

theorem timeMultiplier_ub (h : Nat) : timeMultiplier h ≤ 1 := by
  by_cases hw : 6 ≤ h ∧ h ≤ 18
  · exact (timeMultiplier_window h hw).2
  · unfold timeMultiplier
    rw [if_neg hw]
    norm_num

theorem timeMultiplier_noon : timeMultiplier 12 = 1 := by
  unfold timeMultiplier
  rw [if_pos (by decide : 6 ≤ 12 ∧ 12 ≤ 18)]
  have harg : (((12 : Nat) : ℝ) - 6) * Real.pi / 12 = Real.pi / 2 := by
    push_cast
    ring
  rw [harg, Real.sin_pi_div_two]
  norm_num

theorem offline_ghi_bounds_aux (hour : Nat) (r : ℝ) (h0 : 0 ≤ r) (hlt : r < 1) :
    0.96 ≤ toFixed6 ((4.8 + r * 0.6) * timeMultiplier hour)
      ∧ toFixed6 ((4.8 + r * 0.6) * timeMultiplier hour) ≤ 5.41 := by
  have hlb := timeMultiplier_lb hour
  have hub := timeMultiplier_ub hour
  have hbase0 : (0:ℝ) ≤ 4.8 + r * 0.6 := by nlinarith
  have hxlb : (0.96 : ℝ) ≤ (4.8 + r * 0.6) * timeMultiplier hour := by nlinarith
  have hxub : (4.8 + r * 0.6) * timeMultiplier hour ≤ 5.4 := by nlinarith
  constructor
  · have hcast : ((960000 : ℤ) : ℝ) / 1000000 = 0.96 := by norm_num
    have := toFixed6_ge (n := 960000) (x := (4.8 + r * 0.6) * timeMultiplier hour)
      (by rw [hcast]; exact hxlb)
    linarith [this, hcast.symm.le]
  · have := toFixed6_le_add ((4.8 + r * 0.6) * timeMultiplier hour)
    linarith

/-- C1: every combined acquisition result (part_001 pipeline, server.js
pipeline, and the offline fallback) has `sources_scraped` equal to the
number of the three per-source readings whose success flag is true. -/
theorem sources_scraped_eq_success_count (gsa pvgis bmkg : PartialSource)
    (name : String) (online : Bool) (dur : Nat) (now : Int) (la ln : ℚ)
    (lat lng : ℝ) (hour : Nat) (r : ℝ) (loc : Option String) :
    (performAutoScrape gsa pvgis bmkg name online dur).sources_scraped
        = successCountSpec gsa.success pvgis.success bmkg.success
    ∧ (scrapeAllSources (fun _ => none) now gsa pvgis bmkg name la ln dur).1.sources_scraped
        = successCountSpec gsa.success pvgis.success bmkg.success
    ∧ (generateOfflineSolarData lat lng hour r loc).sources_scraped
        = successCountSpec (generateOfflineSolarData lat lng hour r loc).globalsolaratlas.success
            (generateOfflineSolarData lat lng hour r loc).pvgis.success
            (generateOfflineSolarData lat lng hour r loc).bmkg.success := by
  obtain ⟨a, qa⟩ := gsa
  obtain ⟨b, qb⟩ := pvgis
  obtain ⟨c, qc⟩ := bmkg
  refine ⟨?_, ?_, rfl⟩
  · cases a <;> cases b <;> cases c <;> rfl
  · cases a <;> cases b <;> cases c <;> rfl

/-- C2 counterexample: at midnight (hour 0, outside the 06:00-18:00
window) the synthesized GHI is 0.96, not zero. -/
theorem offline_midnight_ghi_ne_zero :
    (generateOfflineSolarData 0 0 0 0 none).bmkg.ghi ≠ 0 := by
  have hm : timeMultiplier 0 = 0.2 := by
    unfold timeMultiplier
    rw [if_neg (by decide : ¬(6 ≤ 0 ∧ 0 ≤ 18))]
  have e1 : (generateOfflineSolarData 0 0 0 0 none).bmkg.ghi
      = toFixed6 ((4.8 + 0 * 0.6) * timeMultiplier 0) := rfl
  have v1 : (4.8 + 0 * 0.6) * (0.2 : ℝ) = ((960000 : ℤ) : ℝ) / 1000000 := by
    norm_num
  rw [e1, hm, v1, toFixed6_millionth]
  norm_num

/-- C2 (amended): outside 06:00-18:00 the multiplier is the constant
0.2, so the synthesized GHI is positive, not zero; inside the window the
multiplier lies in [0.6, 1] and attains 1 at hour 12, so for a fixed
draw GHI peaks at solar noon; all three sources carry quality
`offline_estimated` and the result is not a live scrape. -/
theorem offline_solar_shape (lat lng : ℝ) (hour : Nat) (r : ℝ) (hr : 0 ≤ r)
    (loc : Option String) :
    (¬(6 ≤ hour ∧ hour ≤ 18) → timeMultiplier hour = 0.2 ∧
        0 < (generateOfflineSolarData lat lng hour r loc).globalsolaratlas.ghi ∧
        0 < (generateOfflineSolarData lat lng hour r loc).bmkg.ghi)
    ∧ (6 ≤ hour ∧ hour ≤ 18 → 0.6 ≤ timeMultiplier hour ∧ timeMultiplier hour ≤ 1)
    ∧ timeMultiplier 12 = 1
    ∧ (generateOfflineSolarData lat lng hour r loc).globalsolaratlas.ghi
        ≤ (generateOfflineSolarData lat lng 12 r loc).globalsolaratlas.ghi
    ∧ (generateOfflineSolarData lat lng hour r loc).globalsolaratlas.data_quality
        = "offline_estimated"
    ∧ (generateOfflineSolarData lat lng hour r loc).pvgis.data_quality = "offline_estimated"
    ∧ (generateOfflineSolarData lat lng hour r loc).bmkg.data_quality = "offline_estimated"
    ∧ (generateOfflineSolarData lat lng hour r loc).is_online_scrape = false := by
  have hghi : ∀ h' : Nat, (generateOfflineSolarData lat lng h' r loc).globalsolaratlas.ghi
      = toFixed6 ((4.8 + r * 0.6) * timeMultiplier h') := fun _ => rfl
  have hbmkg : (generateOfflineSolarData lat lng hour r loc).bmkg.ghi
      = toFixed6 ((4.8 + r * 0.6) * timeMultiplier hour) := rfl
  have hbase0 : (0:ℝ) ≤ 4.8 + r * 0.6 := by nlinarith
  refine ⟨?_, fun hw => timeMultiplier_window hour hw, timeMultiplier_noon, ?_, rfl, rfl, rfl, rfl⟩
  · intro hw
    have hm : timeMultiplier hour = 0.2 := by
      unfold timeMultiplier
      rw [if_neg hw]
    have hxlb : ((960000 : ℤ) : ℝ) / 1000000 ≤ (4.8 + r * 0.6) * timeMultiplier hour := by
      rw [hm]
      push_cast
      nlinarith
    have hpos : (0:ℝ) < ((960000 : ℤ) : ℝ) / 1000000 := by norm_num
    have hge := toFixed6_ge hxlb
    exact ⟨hm, by rw [hghi]; linarith, by rw [hbmkg]; linarith⟩
  · rw [hghi, hghi]
    apply toFixed6_mono
    have h1 : timeMultiplier hour ≤ 1 := timeMultiplier_ub hour
    rw [timeMultiplier_noon]
    nlinarith

/-- C2 witness: the amended shape theorem instantiated at hour 0 with a
zero random draw. -/
theorem offline_solar_shape_check :
    (¬(6 ≤ 0 ∧ 0 ≤ 18) → timeMultiplier 0 = 0.2 ∧
        0 < (generateOfflineSolarData 0 0 0 0 none).globalsolaratlas.ghi ∧
        0 < (generateOfflineSolarData 0 0 0 0 none).bmkg.ghi)
    ∧ (6 ≤ 0 ∧ 0 ≤ 18 → 0.6 ≤ timeMultiplier 0 ∧ timeMultiplier 0 ≤ 1)
    ∧ timeMultiplier 12 = 1
    ∧ (generateOfflineSolarData 0 0 0 0 none).globalsolaratlas.ghi
        ≤ (generateOfflineSolarData 0 0 12 0 none).globalsolaratlas.ghi
    ∧ (generateOfflineSolarData 0 0 0 0 none).globalsolaratlas.data_quality
        = "offline_estimated"
    ∧ (generateOfflineSolarData 0 0 0 0 none).pvgis.data_quality = "offline_estimated"
    ∧ (generateOfflineSolarData 0 0 0 0 none).bmkg.data_quality = "offline_estimated"
    ∧ (generateOfflineSolarData 0 0 0 0 none).is_online_scrape = false :=
  offline_solar_shape 0 0 0 0 (le_refl 0) none

/-- C3 counterexample: two offline runs in the same hour bucket with
different `Math.random()` draws give different GHI (0.96 versus 1.02):
the synthesizer is not a deterministic function of location and
time-bucket. -/
theorem offline_ghi_depends_on_draw :
    (generateOfflineSolarData 0 0 0 0 none).globalsolaratlas.ghi
      ≠ (generateOfflineSolarData 0 0 0 (1 / 2) none).globalsolaratlas.ghi := by
  have hm : timeMultiplier 0 = 0.2 := by
    unfold timeMultiplier
    rw [if_neg (by decide : ¬(6 ≤ 0 ∧ 0 ≤ 18))]
  have e1 : (generateOfflineSolarData 0 0 0 0 none).globalsolaratlas.ghi
      = toFixed6 ((4.8 + 0 * 0.6) * timeMultiplier 0) := rfl
  have e2 : (generateOfflineSolarData 0 0 0 (1 / 2) none).globalsolaratlas.ghi
      = toFixed6 ((4.8 + 1 / 2 * 0.6) * timeMultiplier 0) := rfl
  have v1 : (4.8 + 0 * 0.6) * (0.2 : ℝ) = ((960000 : ℤ) : ℝ) / 1000000 := by norm_num
  have v2 : (4.8 + 1 / 2 * 0.6) * (0.2 : ℝ) = ((1020000 : ℤ) : ℝ) / 1000000 := by norm_num
  rw [e1, e2, hm, v1, v2, toFixed6_millionth, toFixed6_millionth]
  norm_num

/-- C3 (amended): the synthesizer is not deterministic in (location,
hour-bucket) - it depends on the per-call random draw - but any two runs
in the same hour produce GHI values inside the common bounded range
[0.96, 5.41] and with identical zero-ness (both nonzero, at every
hour). -/
theorem offline_ghi_bounded_range (lat lng : ℝ) (hour : Nat) (r₁ r₂ : ℝ)
    (h1 : 0 ≤ r₁) (h2 : r₁ < 1) (h3 : 0 ≤ r₂) (h4 : r₂ < 1) (loc : Option String) :
    (0.96 ≤ (generateOfflineSolarData lat lng hour r₁ loc).globalsolaratlas.ghi
      ∧ (generateOfflineSolarData lat lng hour r₁ loc).globalsolaratlas.ghi ≤ 5.41)
    ∧ (0.96 ≤ (generateOfflineSolarData lat lng hour r₂ loc).globalsolaratlas.ghi
      ∧ (generateOfflineSolarData lat lng hour r₂ loc).globalsolaratlas.ghi ≤ 5.41)
    ∧ ((generateOfflineSolarData lat lng hour r₁ loc).globalsolaratlas.ghi = 0
        ↔ (generateOfflineSolarData lat lng hour r₂ loc).globalsolaratlas.ghi = 0) := by
  have e1 : (generateOfflineSolarData lat lng hour r₁ loc).globalsolaratlas.ghi
      = toFixed6 ((4.8 + r₁ * 0.6) * timeMultiplier hour) := rfl
  have e2 : (generateOfflineSolarData lat lng hour r₂ loc).globalsolaratlas.ghi
      = toFixed6 ((4.8 + r₂ * 0.6) * timeMultiplier hour) := rfl
  have b1 := offline_ghi_bounds_aux hour r₁ h1 h2
  have b2 := offline_ghi_bounds_aux hour r₂ h3 h4
  rw [e1, e2]
  refine ⟨b1, b2, ?_⟩
  constructor
  · intro h
    exfalso
    linarith [b1.1]
  · intro h
    exfalso
    linarith [b2.1]

/-- C3 witness: the bounded-range theorem at hour 0 with draws 0 and
one half. -/
theorem offline_ghi_bounded_range_check :
    (0.96 ≤ (generateOfflineSolarData 0 0 0 0 none).globalsolaratlas.ghi
      ∧ (generateOfflineSolarData 0 0 0 0 none).globalsolaratlas.ghi ≤ 5.41)
    ∧ (0.96 ≤ (generateOfflineSolarData 0 0 0 (1 / 2) none).globalsolaratlas.ghi
      ∧ (generateOfflineSolarData 0 0 0 (1 / 2) none).globalsolaratlas.ghi ≤ 5.41)
    ∧ ((generateOfflineSolarData 0 0 0 0 none).globalsolaratlas.ghi = 0
        ↔ (generateOfflineSolarData 0 0 0 (1 / 2) none).globalsolaratlas.ghi = 0) :=
  offline_ghi_bounded_range 0 0 0 0 (1 / 2) (le_refl 0) zero_lt_one
    (le_of_lt one_half_pos) one_half_lt_one none

/-- C4: a cache entry younger than one hour is returned unchanged
without invoking the adapters and without touching the cache; a stale or
missing entry triggers a fresh acquisition whose result replaces the
entry under the location key. -/
theorem scrapeAllSources_cache_semantics (cache : String → Option CacheEntry)
    (now : Int) (gsa pvgis bmkg : PartialSource) (name : String) (lat lng : ℚ)
    (dur : Nat) (e : CacheEntry) :
    (cache (toString lat ++ "_" ++ toString lng) = some e →
      now - e.timestamp < 3600000 →
      scrapeAllSources cache now gsa pvgis bmkg name lat lng dur = (e.data, cache, false))
    ∧ (cache (toString lat ++ "_" ++ toString lng) = some e →
      3600000 ≤ now - e.timestamp →
      (scrapeAllSources cache now gsa pvgis bmkg name lat lng dur).2.2 = true
      ∧ (scrapeAllSources cache now gsa pvgis bmkg name lat lng dur).2.1
          (toString lat ++ "_" ++ toString lng)
        = some ⟨(scrapeAllSources cache now gsa pvgis bmkg name lat lng dur).1, now⟩)
    ∧ (cache (toString lat ++ "_" ++ toString lng) = none →
      (scrapeAllSources cache now gsa pvgis bmkg name lat lng dur).2.2 = true
      ∧ (scrapeAllSources cache now gsa pvgis bmkg name lat lng dur).2.1
          (toString lat ++ "_" ++ toString lng)
        = some ⟨(scrapeAllSources cache now gsa pvgis bmkg name lat lng dur).1, now⟩) := by
  refine ⟨fun hc hf => ?_, fun hc hs => ?_, fun hc => ?_⟩
  · unfold scrapeAllSources
    simp only [hc]
    rw [if_pos hf]
  · unfold scrapeAllSources
    simp only [hc]
    rw [if_neg (not_lt.mpr hs)]
    exact ⟨by simp, by simp⟩
  · unfold scrapeAllSources
    simp only [hc]
    exact ⟨by simp, by simp⟩

/-- C4 witness: the cache-hit branch at a concrete cache holding an
entry of age 30 minutes. -/
theorem scrapeAllSources_cache_semantics_check :
    scrapeAllSources cacheW 1800000 ⟨true, "estimated"⟩ ⟨true, "excellent"⟩
        ⟨false, "estimated"⟩ "Depok" 1 2 900
      = (cachedReadingW, cacheW, false) :=
  (scrapeAllSources_cache_semantics cacheW 1800000 ⟨true, "estimated"⟩
      ⟨true, "excellent"⟩ ⟨false, "estimated"⟩ "Depok" 1 2 900
      ⟨cachedReadingW, 0⟩).1
    (by unfold cacheW cacheKeyW; simp)
    (by decide)

/-- C5 counterexample: on a network failure the Atlas adapter returns a
failed reading whose quality tag is not the claimed `error`. -/
theorem adapter_failure_quality_not_error :
    (scrapeGlobalSolarAtlas 0 0 (.error "network timeout") 0 0 0).1.success = false
    ∧ (scrapeGlobalSolarAtlas 0 0 (.error "network timeout") 0 0 0).1.data_quality
        ≠ "error" := by
  refine ⟨rfl, ?_⟩
  decide

/-- C5 (amended): on ordinary network/parse failures every adapter
returns (never raises) a reading with `success = false`, quality tag
`estimated` (not `error`), and a present best-effort default value for
every metric of the source's fixed record shape. -/
theorem adapter_failure_returns_reading (lat lng : ℚ) (e₁ e₂ e₃ : String)
    (r₁ r₂ r₃ r₄ s₁ s₂ s₃ s₄ t₁ t₂ t₃ t₄ t₅ t₆ : ℚ) :
    ((scrapeGlobalSolarAtlas lat lng (.error e₁) r₁ r₂ r₃).1.success = false
      ∧ (scrapeGlobalSolarAtlas lat lng (.error e₁) r₁ r₂ r₃).1.data_quality = "estimated"
      ∧ (scrapeGlobalSolarAtlas lat lng (.error e₁) r₁ r₂ r₃).1.data.ghi.isSome = true
      ∧ (scrapeGlobalSolarAtlas lat lng (.error e₁) r₁ r₂ r₃).1.data.dni.isSome = true
      ∧ (scrapeGlobalSolarAtlas lat lng (.error e₁) r₁ r₂ r₃).1.data.dhi.isSome = true
      ∧ (scrapeGlobalSolarAtlas lat lng (.error e₁) r₁ r₂ r₃).1.data.temperature.isSome = true
      ∧ (scrapeGlobalSolarAtlas lat lng (.error e₁) r₁ r₂ r₃).1.data.humidity.isSome = true)
    ∧ ((scrapePVGIS lat lng (.error e₂) s₁ s₂ s₃ s₄).success = false
      ∧ (scrapePVGIS lat lng (.error e₂) s₁ s₂ s₃ s₄).data_quality = "estimated"
      ∧ (scrapePVGIS lat lng (.error e₂) s₁ s₂ s₃ s₄).data.ghi.isSome = true
      ∧ (scrapePVGIS lat lng (.error e₂) s₁ s₂ s₃ s₄).data.dni.isSome = true
      ∧ (scrapePVGIS lat lng (.error e₂) s₁ s₂ s₃ s₄).data.pv_output.isSome = true
      ∧ (scrapePVGIS lat lng (.error e₂) s₁ s₂ s₃ s₄).data.optimal_angle.isSome = true
      ∧ (scrapePVGIS lat lng (.error e₂) s₁ s₂ s₃ s₄).data.temperature.isSome = true)
    ∧ ((scrapeBMKG lat lng (.error e₃) t₁ t₂ t₃ t₄ t₅ t₆).1.success = false
      ∧ (scrapeBMKG lat lng (.error e₃) t₁ t₂ t₃ t₄ t₅ t₆).1.data_quality = "estimated"
      ∧ (scrapeBMKG lat lng (.error e₃) t₁ t₂ t₃ t₄ t₅ t₆).1.data.temperature.isSome = true
      ∧ (scrapeBMKG lat lng (.error e₃) t₁ t₂ t₃ t₄ t₅ t₆).1.data.humidity.isSome = true
      ∧ (scrapeBMKG lat lng (.error e₃) t₁ t₂ t₃ t₄ t₅ t₆).1.data.pressure.isSome = true
      ∧ (scrapeBMKG lat lng (.error e₃) t₁ t₂ t₃ t₄ t₅ t₆).1.data.wind_speed.isSome = true
      ∧ (scrapeBMKG lat lng (.error e₃) t₁ t₂ t₃ t₄ t₅ t₆).1.data.cloud_cover.isSome = true
      ∧ (scrapeBMKG lat lng (.error e₃) t₁ t₂ t₃ t₄ t₅ t₆).1.data.visibility.isSome = true) :=
  ⟨⟨rfl, rfl, rfl, rfl, rfl, rfl, rfl⟩,
   ⟨rfl, rfl, rfl, rfl, rfl, rfl, rfl⟩,
   ⟨rfl, rfl, rfl, rfl, rfl, rfl, rfl, rfl⟩⟩

/-- C6: a request body whose latitude is absent (both inside
`coordinates` and at top level) is rejected with HTTP 400 by both
manual scrape handlers, and no row is written. -/
theorem missing_lat_rejected_400 (b : ScrapeBody)
    (h1 : ∀ c, b.coordinates = some c → c.lat = none) (h2 : b.lat = none) :
    manualScrapeHandler b
        = .badRequest 400 "Coordinates are required (coordinates or lat/lng)"
    ∧ scrapeLocationHandler b = .badRequest 400 "Coordinates (lat, lng) are required"
    ∧ manualScrapeRowsWritten b = 0 := by
  have hres : resolveCoords b = none := by
    unfold resolveCoords
    cases hc : b.coordinates with
    | none => simp [h2, truthy]
    | some c => simp [h1 c hc, h2, truthy]
  refine ⟨?_, ?_, ?_⟩
  · unfold manualScrapeHandler
    rw [hres]
  · unfold scrapeLocationHandler
    cases hc : b.coordinates with
    | none => rfl
    | some c => simp [h1 c hc, truthy]
  · unfold manualScrapeRowsWritten manualScrapeHandler
    rw [hres]

/-- C6 witness: the rejection theorem at a concrete body missing
`lat`. -/
theorem missing_lat_rejected_400_check :
    manualScrapeHandler missingLatBody
        = .badRequest 400 "Coordinates are required (coordinates or lat/lng)"
    ∧ scrapeLocationHandler missingLatBody
        = .badRequest 400 "Coordinates (lat, lng) are required"
    ∧ manualScrapeRowsWritten missingLatBody = 0 :=
  missing_lat_rejected_400 missingLatBody (fun c h => nomatch h) rfl

/-- C7: the persistence writer turns every insert failure into a logged
message and never an exception, so the abort-on-exception roster
sequencing of the scheduler completes every location regardless of the
insert outcomes. -/
theorem save_failure_does_not_abort_roster
    (entries : List (String × Except String Unit)) :
    runRoster entries = .ok (entries.map (fun p => ⟨p.1, saveLogOf p.2⟩))
    ∧ ∀ e : String,
        saveToPostgreSQL (.error e) = .ok (some ("Save to PostgreSQL failed: " ++ e)) := by
  constructor
  · induction entries with
    | nil => rfl
    | cons p t ih =>
        obtain ⟨loc, ins⟩ := p
        cases ins with
        | ok u => simp [runRoster, performAutoScrapeStep, saveToPostgreSQL, saveLogOf, ih]
        | error e => simp [runRoster, performAutoScrapeStep, saveToPostgreSQL, saveLogOf, ih]
  · intro e
    rfl

theorem filter_map_ghi_eq (src : SourceKey) (now : Int) (rows : List DbRow) :
    ((rows.filter (fun r => (ghiColumn src r).isSome && inLookbackWindow now r)).map
        (fun r => ghiColumn src r)).map (fun d => jsNumOr d 0)
      = (rows.filter (fun r => inLookbackWindow now r)).filterMap (fun r => ghiColumn src r) := by
  induction rows with
  | nil => rfl
  | cons r t ih =>
      by_cases hw : inLookbackWindow now r = true
      · cases hg : ghiColumn src r with
        | none => simp [List.filter_cons, List.filterMap_cons, hg, hw, ih]
        | some x =>
            have hx : jsNumOr (some x) 0 = x := by
              unfold jsNumOr
              by_cases h0 : x = 0
              · simp [h0]
              · simp [h0]
            simp [List.filter_cons, List.filterMap_cons, hg, hw, ih, hx]
      · rw [Bool.not_eq_true] at hw
        simp [List.filter_cons, List.filterMap_cons, hw, ih]

/-- C8: the `avg_ghi` aggregate of the per-source endpoints equals the
arithmetic mean of the non-NULL GHI values of the persisted rows inside
the lookback window, and an empty table yields 0 rather than an
error. -/
theorem avg_ghi_is_arithmetic_mean (src : SourceKey) (now : Int) (rows : List DbRow) :
    avgGhiOfSource src now rows = arithmeticMean (windowGhiValues src now rows)
    ∧ avgGhiOfSource src now [] = 0 := by
  constructor
  · have key := filter_map_ghi_eq src now rows
    have hlen : (buildHourlyDataForSource src now rows).length
        = (windowGhiValues src now rows).length := by
      have h := congrArg List.length key
      simpa [buildHourlyDataForSource, windowGhiValues, List.length_map] using h
    unfold avgGhiOfSource arithmeticMean
    by_cases hE : windowGhiValues src now rows = []
    · rw [if_pos hE]
      rw [if_neg]
      rw [hlen, hE]
      simp
    · rw [if_neg hE]
      have hpos : 0 < (windowGhiValues src now rows).length := List.length_pos.mpr hE
      rw [if_pos (by rw [hlen]; exact hpos)]
      have hsum : ((buildHourlyDataForSource src now rows).map (fun d => jsNumOr d 0)).sum
          = (windowGhiValues src now rows).sum := by
        unfold buildHourlyDataForSource windowGhiValues
        rw [key]
      rw [hsum, hlen]
  · rfl

/-- C9: evaluation of the browser adapters at a navigation failure: the
page is reported closed only on the success path; when navigation or
extraction throws after the page was opened, the outer catch returns the
fallback reading without closing the page. -/
theorem page_not_closed_on_nav_failure :
    (scrapeGlobalSolarAtlas (-6.4025) 106.7942
        (.error "Navigation timeout of 30000 ms exceeded") 0 0 0).2 = false
    ∧ (scrapeBMKG (-6.4025) 106.7942 (.error "Protocol error") 0 0 0 0 0 0).2 = false
    ∧ (scrapeGlobalSolarAtlas (-6.4025) 106.7942
        (.ok { ghi := some 5.2, dni := some 4.1, dhi := some 1.8, temperature := some 28,
               humidity := some 75, extraction_method := "estimated" }) 0 0 0).2 = true :=
  ⟨rfl, rfl, rfl⟩

/-- C10: a valid equator coordinate (lat = 0, inside the documented
ranges) is rejected with HTTP 400 by both manual scrape handlers because
the presence check uses JS truthiness, and no acquisition is started. -/
theorem zero_coordinate_rejected_400 :
    ((-90 : ℚ) ≤ 0 ∧ (0 : ℚ) ≤ 90 ∧ (-180 : ℚ) ≤ 106.8456 ∧ (106.8456 : ℚ) ≤ 180)
    ∧ manualScrapeHandler equatorBody
        = .badRequest 400 "Coordinates are required (coordinates or lat/lng)"
    ∧ scrapeLocationHandler equatorBody
        = .badRequest 400 "Coordinates (lat, lng) are required"
    ∧ manualScrapeRowsWritten equatorBody = 0 := by
  refine ⟨by norm_num, rfl, rfl, rfl⟩
